import Mathlib

/-!
Verification of `generate-icon.py` (MoodleBox icon generator).

The script paints a 1024×1024 vertical gradient from light orange to dark
orange, overlays the text "MB", and saves the result as a PNG under
`build/icon-source.png`.  We embed the script shallowly: the gradient loop
becomes a fold over row indices, Python's float arithmetic (exact here,
because every intermediate value is a dyadic rational with denominator 1024
and small numerator) becomes rational arithmetic, `int(...)` becomes
truncation toward zero, and the library calls (font loading, text
measurement, file saving) become an explicit environment.
-/

namespace GenerateIcon

/-- Canvas width, from `width = height = 1024`. -/
def width : ℕ := 1024

/-- Canvas height, from `width = height = 1024`. -/
def height : ℕ := 1024

/-- An RGB color, one integer per channel. -/
abbrev Color : Type := ℤ × ℤ × ℤ

/-- The light endpoint of the gradient: `light_orange = (255, 136, 0)`. -/
def light_orange : Color := (255, 136, 0)

/-- The dark endpoint of the gradient: `dark_orange = (255, 85, 0)`. -/
def dark_orange : Color := (255, 85, 0)

/-- Python `int(q)` on a float/rational: truncation toward zero. -/
def truncInt (q : ℚ) : ℤ := if 0 ≤ q then ⌊q⌋ else ⌈q⌉

/-- The interpolation expression `light + (dark - light) * (y / height)`
computed by the gradient loop body for one channel; `y / height` is
real-number division. -/
def interp (light dark : ℤ) (y : ℕ) : ℚ :=
  (light : ℚ) + ((dark : ℚ) - (light : ℚ)) * ((y : ℚ) / (height : ℚ))

/-- The `(r, g, b)` triple computed by the loop body at row `y`:
each channel is `int(light[c] + (dark[c] - light[c]) * ratio)`. -/
def rowColor (y : ℕ) : Color :=
  (truncInt (interp light_orange.1 dark_orange.1 y),
   truncInt (interp light_orange.2.1 dark_orange.2.1 y),
   truncInt (interp light_orange.2.2 dark_orange.2.2 y))

/-- A pixel canvas: a color for each (x, y) coordinate. -/
def Canvas : Type := ℕ → ℕ → Color

/-- `Image.new('RGB', (width, height))` fills the canvas with black. -/
def initCanvas : Canvas := fun _ _ => (0, 0, 0)

/-- `draw.line([(0, y), (width, y)], fill = color)`: paint the horizontal
segment from x = 0 to x = width at row y (clipped to the canvas). -/
def drawHLine (c : Canvas) (y : ℕ) (color : Color) : Canvas :=
  fun x' y' => if y' = y ∧ x' ≤ width then color else c x' y'

/-- The gradient loop: `for y in range(height): ... draw.line(...)`. -/
def gradientCanvas : Canvas :=
  (List.range height).foldl (fun c y => drawHLine c y (rowColor y)) initCanvas

/-- The ordered candidate font files: macOS, then Linux, then Windows. -/
def font_paths : List String :=
  ["/System/Library/Fonts/Helvetica.ttc",
   "/usr/share/fonts/truetype/dejavu/DejaVuSans-Bold.ttf",
   "C:\\Windows\\Fonts\\arialbd.ttf"]

/-- A resolved font: either a truetype font loaded from a file at a pixel
size (`ImageFont.truetype(path, 420)`), or the library's built-in default
font (`ImageFont.load_default()`). -/
inductive Font where
  | truetype (path : String) (size : ℕ)
  | default
deriving DecidableEq

/-- What the font-resolution code observes about its surroundings: whether
a path exists on the filesystem (`os.path.exists`), and whether loading a
truetype font from that path succeeds or raises. -/
structure FontEnv where
  pathExists : String → Bool
  loadOk : String → Bool

/-- The `for path in font_paths` loop: the first existing path is loaded
and the loop breaks; a load failure is an exception escaping to the
enclosing `try` (modelled by `Except.error`); if no path exists the
loop falls through with `font = None` (modelled by `Option.none`). -/
def tryPaths (env : FontEnv) : List String → Except Unit (Option Font)
  | [] => .ok none
  | p :: rest =>
    if env.pathExists p then
      if env.loadOk p then .ok (some (Font.truetype p 420)) else .error ()
    else tryPaths env rest

/-- Full font resolution: the loop, the `if font is None: load_default()`
check, and the bare `except:` handler that also substitutes the default. -/
def resolveFont (env : FontEnv) : Font :=
  match tryPaths env font_paths with
  | .ok (some f) => f
  | .ok none => Font.default
  | .error _ => Font.default

/-- The drawn label: `text = "MB"`. -/
def text : String := "MB"

/-- One recorded `draw.text((x, y), text, font=font, fill=fill)` call. -/
structure TextOp where
  pos : ℚ × ℚ
  str : String
  font : Font
  fill : Color

/-- Everything the script observes from outside: the two font-resolution
observations plus the text bounding-box measurement
`draw.textbbox((0, 0), text, font=font)`, returning `(x0, y0, x1, y1)`. -/
structure Env where
  pathExists : String → Bool
  loadOk : String → Bool
  textbbox : Font → String → ℤ × ℤ × ℤ × ℤ

/-- The in-memory image at the end of the run: its mode and size from
`Image.new('RGB', (width, height))`, the gradient pixels, and the text
drawing commands layered on top. -/
structure RenderedImage where
  mode : String
  w : ℕ
  h : ℕ
  base : Canvas
  textOps : List TextOp

/-- The font the script ends up using, given the environment. -/
def fontOf (env : Env) : Font := resolveFont ⟨env.pathExists, env.loadOk⟩

/-- The straight-line image construction: gradient, font resolution, text
measurement (`bbox = draw.textbbox(...)`, `text_width = bbox[2] - bbox[0]`,
`text_height = bbox[3] - bbox[1]`), placement
(`x = (width - text_width) / 2`, `y = (height - text_height) / 2 - 40`,
float division), and the black text draw. -/
def makeImage (env : Env) : RenderedImage :=
  let font := fontOf env
  let bbox := env.textbbox font text
  let text_width := bbox.2.2.1 - bbox.1
  let text_height := bbox.2.2.2 - bbox.2.1
  let x := ((width : ℚ) - (text_width : ℚ)) / 2
  let y := ((height : ℚ) - (text_height : ℚ)) / 2 - 40
  { mode := "RGB", w := width, h := height, base := gradientCanvas,
    textOps := [⟨(x, y), text, font, (0, 0, 0)⟩] }

/-- The fixed output location: `output_path = "build/icon-source.png"`. -/
def output_path : String := "build/icon-source.png"

/-- Contents of a file on disk: either the encoding of a rendered image in
a named format, or arbitrary pre-existing bytes. -/
inductive FileData where
  | encoded (fmt : String) (img : RenderedImage)
  | blob (n : ℕ)

/-- The one unrecovered failure of the script: `image.save` raising
because the output directory is missing. -/
inductive SaveErr where
  | dirMissing
deriving DecidableEq

/-- The filesystem: file contents by path, and which directories exist. -/
structure World where
  files : String → Option FileData
  dirs : String → Bool

/-- Modelled from the spec: the library call `image.save(output_path, "PNG")`
for the fixed path `build/icon-source.png` (the call itself lives in the
imaging library, outside this repository). Per the spec's dependency
contract it raises when the parent directory `build/` does not exist, and
otherwise creates or overwrites the file with the PNG encoding of the
image; the script wraps it in no handler. -/
def saveImage (w : World) (img : RenderedImage) : Option SaveErr × World :=
  if w.dirs "build" then
    (none, { w with
      files := fun q => if q = output_path then some (.encoded "PNG" img) else w.files q })
  else
    (some .dirMissing, w)

/-- The whole run: build the image, then save it. Returns the uncaught
error, if any, together with the final filesystem. -/
def runScript (env : Env) (w : World) : Option SaveErr × World :=
  saveImage w (makeImage env)

/-- A sample environment: no font path exists, loads would succeed, and
the measured bounding box of any text is `(0, 0, 0, 0)`. -/
def env0 : Env :=
  { pathExists := fun _ => false, loadOk := fun _ => true,
    textbbox := fun _ _ => (0, 0, 0, 0) }

/-- A sample filesystem with no files and no directories. -/
def w0 : World := { files := fun _ => none, dirs := fun _ => false }

/-- A sample filesystem where `build/` exists and no file is present. -/
def wOk : World := { files := fun _ => none, dirs := fun _ => true }

/-- A sample filesystem where `build/` exists and a stale file already
sits at the output path. -/
def wPre : World :=
  { files := fun q => if q = output_path then some (.blob 7) else none,
    dirs := fun _ => true }

/-- One step of the fold leaves rows other than `y` untouched. -/
theorem drawHLine_ne (c : Canvas) (y : ℕ) (color : Color) (x' y' : ℕ)
    (h : y' ≠ y) : drawHLine c y color x' y' = c x' y' := by
  simp [drawHLine, h]

/-- One step of the fold paints all of row `y` (within the segment). -/
theorem drawHLine_eq (c : Canvas) (y : ℕ) (color : Color) (x' : ℕ)
    (h : x' ≤ width) : drawHLine c y color x' y = color := by
  simp [drawHLine, h]

/-- After folding the gradient painter over `List.range n`, every already
painted row `y < n` holds `rowColor y`, and the rest is the accumulator. -/
theorem foldl_gradient (n : ℕ) (c : Canvas) (x y : ℕ) (hx : x ≤ width) :
    ((List.range n).foldl (fun c y => drawHLine c y (rowColor y)) c) x y =
      if y < n then rowColor y else c x y := by
  induction n generalizing c with
  | zero => simp
  | succ n ih =>
    rw [List.range_succ, List.foldl_append]
    simp only [List.foldl_cons, List.foldl_nil]
    by_cases hy : y = n
    · subst hy
      rw [drawHLine_eq _ _ _ _ hx]
      simp
    · rw [drawHLine_ne _ _ _ _ _ hy, ih]
      rcases Nat.lt_or_ge y n with h | h
      · simp [h, Nat.lt_succ_of_lt h]
      · have h1 : ¬ y < n := Nat.not_lt.mpr h
        have h2 : ¬ y < n + 1 := by omega
        simp [h1, h2]

/-- The gradient canvas agrees with the loop-body formula on every pixel. -/
theorem gradientCanvas_eq_rowColor (x y : ℕ) (hx : x < 1024) (hy : y < 1024) :
    gradientCanvas x y = rowColor y := by
  unfold gradientCanvas height
  rw [foldl_gradient 1024 initCanvas x y (by unfold width; omega)]
  simp [hy]

/-- Truncation toward zero of a nonnegative rational is the floor. -/
theorem truncInt_of_nonneg (q : ℚ) (h : 0 ≤ q) : truncInt q = ⌊q⌋ := by
  rw [truncInt, if_pos h]

/-- The red channel expression is constantly 255 (both endpoints are 255). -/
theorem interp_red (y : ℕ) : interp 255 255 y = 255 := by
  simp [interp]

/-- The blue channel expression is constantly 0 (both endpoints are 0). -/
theorem interp_blue (y : ℕ) : interp 0 0 y = 0 := by
  simp [interp]

/-- The green channel expression as a single rational. -/
theorem interp_green (y : ℕ) :
    interp 136 85 y = ((139264 - 51 * (y : ℤ) : ℤ) : ℚ) / ((1024 : ℕ) : ℚ) := by
  unfold interp height
  push_cast
  field_simp
  ring

/-- For rows inside the canvas, the loop body computes
`(255, (139264 - 51*y) / 1024, 0)` with integer (floor) division: all the
Python float operations are exact on dyadic rationals of denominator 1024,
and `int` of a nonnegative value is the floor. -/
theorem rowColor_eq (y : ℕ) (hy : y < 1024) :
    rowColor y = (255, (139264 - 51 * (y : ℤ)) / 1024, 0) := by
  have hnum : (0 : ℤ) ≤ 139264 - 51 * (y : ℤ) := by omega
  have hnn : (0 : ℚ) ≤ interp 136 85 y := by
    rw [interp_green]
    exact div_nonneg (Int.cast_nonneg.mpr hnum) (Nat.cast_nonneg 1024)
  unfold rowColor light_orange dark_orange
  refine Prod.ext ?_ (Prod.ext ?_ ?_)
  · show truncInt (interp 255 255 y) = 255
    rw [interp_red, truncInt_of_nonneg _ (by norm_num)]
    norm_num
  · show truncInt (interp 136 85 y) = (139264 - 51 * (y : ℤ)) / 1024
    rw [truncInt_of_nonneg _ hnn, interp_green, Rat.floor_intCast_div_natCast]
    norm_num
  · show truncInt (interp 0 0 y) = 0
    rw [interp_blue, truncInt_of_nonneg _ le_rfl]
    exact Int.floor_zero

/-- The green value of the loop body is non-increasing in the row index. -/
theorem rowColor_green_mono (y1 y2 : ℕ) (h12 : y1 ≤ y2) (h2 : y2 < 1024) :
    (rowColor y2).2.1 ≤ (rowColor y1).2.1 := by
  rw [rowColor_eq y1 (by omega), rowColor_eq y2 h2]
  show (139264 - 51 * (y2 : ℤ)) / 1024 ≤ (139264 - 51 * (y1 : ℤ)) / 1024
  omega

/-- The green value of the loop body stays within `[85, 136]`. -/
theorem rowColor_green_bounds (y : ℕ) (hy : y < 1024) :
    85 ≤ (rowColor y).2.1 ∧ (rowColor y).2.1 ≤ 136 := by
  rw [rowColor_eq y hy]
  show 85 ≤ (139264 - 51 * (y : ℤ)) / 1024 ∧ (139264 - 51 * (y : ℤ)) / 1024 ≤ 136
  omega

/-- C1: for every row `y < 1024` and column `x < 1024`, the gradient loop
paints pixel `(x, y)` with channels
`int(light[c] + (dark[c] - light[c]) * (y / 1024))` for
`light = (255, 136, 0)` and `dark = (255, 85, 0)`, where `y / 1024` is
real-number division and `int` truncates toward zero. -/
theorem C1_gradient_row_formula (x y : ℕ) (hx : x < 1024) (hy : y < 1024) :
    gradientCanvas x y =
      (truncInt ((255 : ℚ) + ((255 : ℚ) - 255) * ((y : ℚ) / 1024)),
       truncInt ((136 : ℚ) + ((85 : ℚ) - 136) * ((y : ℚ) / 1024)),
       truncInt ((0 : ℚ) + ((0 : ℚ) - 0) * ((y : ℚ) / 1024))) := by
  rw [gradientCanvas_eq_rowColor x y hx hy]
  unfold rowColor interp light_orange dark_orange height
  norm_num

/-- Witness for C1 at pixel (0, 5). -/
theorem C1_gradient_row_formula_witness :
    (0 : ℕ) < 1024 ∧ (5 : ℕ) < 1024 ∧
    gradientCanvas 0 5 =
      (truncInt ((255 : ℚ) + ((255 : ℚ) - 255) * (((5 : ℕ) : ℚ) / 1024)),
       truncInt ((136 : ℚ) + ((85 : ℚ) - 136) * (((5 : ℕ) : ℚ) / 1024)),
       truncInt ((0 : ℚ) + ((0 : ℚ) - 0) * (((5 : ℕ) : ℚ) / 1024))) :=
  ⟨by decide, by decide, C1_gradient_row_formula 0 5 (by decide) (by decide)⟩

/-- C2 counterexample: the bottom row (index 1023) is painted exactly
`dark_orange = (255, 85, 0)`, refuting "never exactly equal to the dark
endpoint". -/
theorem C2_bottom_row_counterexample : gradientCanvas 0 1023 = dark_orange := by
  rw [gradientCanvas_eq_rowColor 0 1023 (by decide) (by decide),
    rowColor_eq 1023 (by decide)]
  unfold dark_orange
  refine Prod.ext rfl (Prod.ext ?_ rfl)
  show (139264 - 51 * ((1023 : ℕ) : ℤ)) / 1024 = 85
  omega

/-- C2 (amended): the untruncated interpolant at the bottom row is strictly
between the endpoint values in the green channel (since `ratio < 1`), but
after integer truncation the painted bottom-row color equals exactly the
dark endpoint `(255, 85, 0)`. -/
theorem C2_bottom_row_amended (x : ℕ) (hx : x < 1024) :
    gradientCanvas x 1023 = dark_orange ∧
    (85 : ℚ) < interp 136 85 1023 ∧ interp 136 85 1023 < 136 := by
  refine ⟨?_, ?_, ?_⟩
  · rw [gradientCanvas_eq_rowColor x 1023 hx (by decide),
      rowColor_eq 1023 (by decide)]
    unfold dark_orange
    refine Prod.ext rfl (Prod.ext ?_ rfl)
    show (139264 - 51 * ((1023 : ℕ) : ℤ)) / 1024 = 85
    omega
  · rw [interp_green]
    push_cast
    norm_num
  · rw [interp_green]
    push_cast
    norm_num

/-- Witness for the amended C2 at column 0. -/
theorem C2_bottom_row_amended_witness :
    (0 : ℕ) < 1024 ∧
    (gradientCanvas 0 1023 = dark_orange ∧
     (85 : ℚ) < interp 136 85 1023 ∧ interp 136 85 1023 < 136) :=
  ⟨by decide, C2_bottom_row_amended 0 (by decide)⟩

/-- C3 counterexample: the blue channel is 0 at row 0 and still 0 at the
bottom row 1023 — it never decreases toward 85, refuting the claim's blue
channel clause. -/
theorem C3_blue_channel_counterexample :
    (gradientCanvas 0 0).2.2 = 0 ∧ (gradientCanvas 0 1023).2.2 = 0 ∧
    (gradientCanvas 0 1023).2.2 ≠ 85 := by
  rw [gradientCanvas_eq_rowColor 0 0 (by decide) (by decide),
    gradientCanvas_eq_rowColor 0 1023 (by decide) (by decide),
    rowColor_eq 0 (by decide), rowColor_eq 1023 (by decide)]
  refine ⟨rfl, rfl, by decide⟩

/-- C3 (amended): each channel is monotone in the direction from the light
endpoint to the dark endpoint: the red channel is constantly 255, the blue
channel is constantly 0, and the green channel is non-increasing, from 136
at row 0 down to exactly 85 at row 1023. -/
theorem C3_channel_monotonicity_amended (x y y1 y2 : ℕ) (hx : x < 1024)
    (hy : y < 1024) (h12 : y1 ≤ y2) (h2 : y2 < 1024) :
    (gradientCanvas x y).1 = 255 ∧ (gradientCanvas x y).2.2 = 0 ∧
    (gradientCanvas x 0).2.1 = 136 ∧ (gradientCanvas x 1023).2.1 = 85 ∧
    (gradientCanvas x y2).2.1 ≤ (gradientCanvas x y1).2.1 := by
  rw [gradientCanvas_eq_rowColor x y hx hy,
    gradientCanvas_eq_rowColor x 0 hx (by decide),
    gradientCanvas_eq_rowColor x 1023 hx (by decide),
    gradientCanvas_eq_rowColor x y1 hx (by omega),
    gradientCanvas_eq_rowColor x y2 hx h2,
    rowColor_eq y hy, rowColor_eq 0 (by decide), rowColor_eq 1023 (by decide)]
  refine ⟨rfl, rfl, ?_, ?_, rowColor_green_mono y1 y2 h12 h2⟩
  · show (139264 - 51 * ((0 : ℕ) : ℤ)) / 1024 = 136
    omega
  · show (139264 - 51 * ((1023 : ℕ) : ℤ)) / 1024 = 85
    omega

/-- Witness for the amended C3 at x = 0, y = 5, y1 = 2, y2 = 7. -/
theorem C3_channel_monotonicity_amended_witness :
    (0 : ℕ) < 1024 ∧ (5 : ℕ) < 1024 ∧ (2 : ℕ) ≤ 7 ∧ (7 : ℕ) < 1024 ∧
    ((gradientCanvas 0 5).1 = 255 ∧ (gradientCanvas 0 5).2.2 = 0 ∧
     (gradientCanvas 0 0).2.1 = 136 ∧ (gradientCanvas 0 1023).2.1 = 85 ∧
     (gradientCanvas 0 7).2.1 ≤ (gradientCanvas 0 2).2.1) :=
  ⟨by decide, by decide, by decide, by decide,
   C3_channel_monotonicity_amended 0 5 2 7 (by decide) (by decide)
     (by decide) (by decide)⟩

/-- C4: row 0 is painted exactly `(255, 136, 0)`, the light endpoint. -/
theorem C4_top_row_light_orange (x : ℕ) (hx : x < 1024) :
    gradientCanvas x 0 = (255, 136, 0) := by
  rw [gradientCanvas_eq_rowColor x 0 hx (by decide), rowColor_eq 0 (by decide)]
  refine Prod.ext rfl (Prod.ext ?_ rfl)
  show (139264 - 51 * ((0 : ℕ) : ℤ)) / 1024 = 136
  omega

/-- Witness for C4 at column 0. -/
theorem C4_top_row_light_orange_witness :
    (0 : ℕ) < 1024 ∧ gradientCanvas 0 0 = (255, 136, 0) :=
  ⟨by decide, C4_top_row_light_orange 0 (by decide)⟩

/-- C10: after the gradient loop and before the text is drawn, every pixel
has red channel 255 and blue channel 0, the green channel lies in
`[85, 136]`, and the green channel is non-increasing in the row index. -/
theorem C10_gradient_invariant (x y1 y2 : ℕ) (hx : x < 1024) (h1 : y1 < 1024)
    (h2 : y2 < 1024) (h12 : y1 ≤ y2) :
    (gradientCanvas x y1).1 = 255 ∧ (gradientCanvas x y1).2.2 = 0 ∧
    85 ≤ (gradientCanvas x y1).2.1 ∧ (gradientCanvas x y1).2.1 ≤ 136 ∧
    (gradientCanvas x y2).2.1 ≤ (gradientCanvas x y1).2.1 := by
  rw [gradientCanvas_eq_rowColor x y1 hx h1, gradientCanvas_eq_rowColor x y2 hx h2]
  refine ⟨?_, ?_, (rowColor_green_bounds y1 h1).1, (rowColor_green_bounds y1 h1).2,
    rowColor_green_mono y1 y2 h12 h2⟩
  · rw [rowColor_eq y1 h1]
  · rw [rowColor_eq y1 h1]

/-- Witness for C10 at x = 0, y1 = 3, y2 = 900. -/
theorem C10_gradient_invariant_witness :
    (0 : ℕ) < 1024 ∧ (3 : ℕ) < 1024 ∧ (900 : ℕ) < 1024 ∧ (3 : ℕ) ≤ 900 ∧
    ((gradientCanvas 0 3).1 = 255 ∧ (gradientCanvas 0 3).2.2 = 0 ∧
     85 ≤ (gradientCanvas 0 3).2.1 ∧ (gradientCanvas 0 3).2.1 ≤ 136 ∧
     (gradientCanvas 0 900).2.1 ≤ (gradientCanvas 0 3).2.1) :=
  ⟨by decide, by decide, by decide, by decide,
   C10_gradient_invariant 0 3 900 (by decide) (by decide) (by decide) (by decide)⟩

/-- The loop-plus-handlers computation agrees, on any path list, with
"first existing path wins, any failure yields the default font". -/
theorem tryPaths_find? (env : FontEnv) (ps : List String) :
    (match tryPaths env ps with
     | .ok (some f) => f
     | .ok none => Font.default
     | .error _ => Font.default) =
    (match ps.find? env.pathExists with
     | some p => if env.loadOk p then Font.truetype p 420 else Font.default
     | none => Font.default) := by
  induction ps with
  | nil => rfl
  | cons p rest ih =>
    cases hp : env.pathExists p with
    | false =>
      rw [List.find?_cons_of_neg _ (by simp [hp])]
      simpa [tryPaths, hp] using ih
    | true =>
      rw [List.find?_cons_of_pos _ hp]
      cases hl : env.loadOk p <;> simp [tryPaths, hp, hl]

/-- C5: font resolution never propagates an error: the macOS, Linux and
Windows candidate paths are tried in that order, the first existing one is
loaded, and if no candidate exists — or the load raises — the built-in
default font is silently substituted, so resolution always yields a font. -/
theorem C5_font_resolution_total (env : FontEnv) :
    resolveFont env =
      match font_paths.find? env.pathExists with
      | some p => if env.loadOk p then Font.truetype p 420 else Font.default
      | none => Font.default := by
  unfold resolveFont
  exact tryPaths_find? env font_paths

/-- C6: when the directory `build/` does not exist, the run stops with the
uncaught save error and leaves the filesystem exactly as it was: no file
is written and no directory is created. -/
theorem C6_missing_dir_fails (env : Env) (w : World)
    (h : w.dirs "build" = false) :
    runScript env w = (some SaveErr.dirMissing, w) := by
  unfold runScript saveImage
  rw [h]
  simp

/-- Witness for C6 on the sample environment with no `build/` directory. -/
theorem C6_missing_dir_fails_witness :
    w0.dirs "build" = false ∧ runScript env0 w0 = (some SaveErr.dirMissing, w0) :=
  ⟨rfl, C6_missing_dir_fails env0 w0 rfl⟩

/-- C7: with `w` and `h` the measured bounding-box width and height of
"MB" in the resolved font, the single text draw happens at horizontal
offset `(1024 - w) / 2` and vertical offset `(1024 - h) / 2 - 40`. -/
theorem C7_text_placement (env : Env) :
    (makeImage env).textOps =
      [{ pos :=
          (((1024 : ℚ) -
             (((env.textbbox (fontOf env) text).2.2.1 -
               (env.textbbox (fontOf env) text).1 : ℤ) : ℚ)) / 2,
           ((1024 : ℚ) -
             (((env.textbbox (fontOf env) text).2.2.2 -
               (env.textbbox (fontOf env) text).2.1 : ℤ) : ℚ)) / 2 - 40),
         str := text, font := fontOf env, fill := (0, 0, 0) }] := by
  unfold makeImage width height
  norm_num

/-- C8: determinism in the font environment: two runs whose environments
agree on path existence, font loadability and text measurement build
identical images, and store identical bytes at the output path even from
different initial filesystems (both having `build/`). -/
theorem C8_deterministic (e1 e2 : Env) (w1 w2 : World)
    (hp : e1.pathExists = e2.pathExists) (hl : e1.loadOk = e2.loadOk)
    (hb : e1.textbbox = e2.textbbox)
    (h1 : w1.dirs "build" = true) (h2 : w2.dirs "build" = true) :
    makeImage e1 = makeImage e2 ∧
    (runScript e1 w1).2.files output_path = (runScript e2 w2).2.files output_path := by
  have himg : makeImage e1 = makeImage e2 := by
    cases e1
    cases e2
    cases hp
    cases hl
    cases hb
    rfl
  refine ⟨himg, ?_⟩
  unfold runScript saveImage
  rw [h1, h2, himg]
  simp

/-- Witness for C8: the same environment against an empty filesystem and
against one holding a stale output file. -/
theorem C8_deterministic_witness :
    env0.pathExists = env0.pathExists ∧ env0.loadOk = env0.loadOk ∧
    env0.textbbox = env0.textbbox ∧
    wOk.dirs "build" = true ∧ wPre.dirs "build" = true ∧
    (makeImage env0 = makeImage env0 ∧
     (runScript env0 wOk).2.files output_path =
       (runScript env0 wPre).2.files output_path) :=
  ⟨rfl, rfl, rfl, rfl, rfl,
   C8_deterministic env0 env0 wOk wPre rfl rfl rfl rfl rfl⟩

/-- C9: on success (the `build/` directory exists) the run reports no
error and writes exactly one file — the PNG encoding of the rendered
image at `build/icon-source.png`, overwriting any previous content —
touching no other path and creating no directory; the image is 1024×1024
in RGB mode. -/
theorem C9_output_file (env : Env) (w : World) (h : w.dirs "build" = true) :
    (runScript env w).1 = none ∧
    (runScript env w).2.files output_path =
      some (FileData.encoded "PNG" (makeImage env)) ∧
    (∀ q, q ≠ output_path → (runScript env w).2.files q = w.files q) ∧
    (runScript env w).2.dirs = w.dirs ∧
    (makeImage env).w = 1024 ∧ (makeImage env).h = 1024 ∧
    (makeImage env).mode = "RGB" := by
  unfold runScript saveImage
  rw [h]
  refine ⟨rfl, by simp, ?_, rfl, rfl, rfl, rfl⟩
  intro q hq
  simp [hq]

/-- Witness for C9 on the sample environment with `build/` present. -/
theorem C9_output_file_witness :
    wOk.dirs "build" = true ∧
    ((runScript env0 wOk).1 = none ∧
     (runScript env0 wOk).2.files output_path =
       some (FileData.encoded "PNG" (makeImage env0)) ∧
     (∀ q, q ≠ output_path → (runScript env0 wOk).2.files q = wOk.files q) ∧
     (runScript env0 wOk).2.dirs = wOk.dirs ∧
     (makeImage env0).w = 1024 ∧ (makeImage env0).h = 1024 ∧
     (makeImage env0).mode = "RGB") :=
  ⟨rfl, C9_output_file env0 wOk rfl⟩

end GenerateIcon
